import Mathlib

/-!
Verification development for the 3D reconstruction orchestration and
point-cloud post-processing pipeline of the SiteLenz repository
(src/reconstruction_3d).

The Python source is shallowly embedded as follows.

* Pure numeric transformations on point clouds
  (processing/model_processor.py) are embedded over exact numbers:
  voxel downsampling over rational coordinates with integer floor
  division, and outlier removal over real coordinates.  The outlier
  aggregates (numpy mean / std over k-d tree distances) use IEEE
  special values, so they are embedded over an extended value type
  FVal with fin / inf / ninf / nan constructors and IEEE propagation
  rules.
* The COLMAP adapter (colmap/colmap_wrapper.py) invokes external
  processes and checks the filesystem; both are embedded as a record
  of boolean outcomes (ColmapEnv), one per external command or file
  existence check, and full_reconstruction is a function of that
  record mirroring the control flow of the source line by line.
* The Flask routes (api/routes.py) are embedded as functions from an
  explicit state (session registry, job registry) to a new state plus
  a response.  The session dictionary created by start_session is
  embedded as a structure with exactly the keys the source writes;
  dynamic key lookup (and the KeyError on a missing key) is embedded
  by sessionGet returning an Option.  The background job body
  run_reconstruction is embedded as a function of the session value
  it observes when it reads the shared dictionary.
* The two-phase race between concurrent image uploads is embedded as
  a small scheduler over per-thread program counters: phase 1 is the
  validation plus filename computation from the current image count
  (plus the file write), phase 2 is the list append.
-/

/-! ### Configuration constants (config.py) -/

/-- API_CONFIG max_images_per_session (config.py line 107). -/
def maxImagesPerSession : Nat := 200

/-- API_CONFIG min_images_for_reconstruction (config.py line 108). -/
def minImagesForReconstruction : Nat := 10

/-! ### Voxel downsampling (model_processor.py, downsample_point_cloud)

Point coordinates are embedded as rationals; the source works on
float64 coordinates, and the voxel index of a point is
floor(coordinate / voxel_size) cast to int (line 128), embedded as the
exact rational floor.  np.unique with axis=0 and return_index=True
(line 131) returns the lexicographically sorted distinct voxel rows
together with the index of the first occurrence of each row, and
points[unique_indices] (line 133) keeps the first-encountered point of
each distinct voxel, ordered by sorted voxel row. -/

/-- A 3D point with rational coordinates. -/
abbrev Pt := ℚ × ℚ × ℚ

/-- A voxel index: component-wise floor division of a point by the voxel size. -/
abbrev Vox := ℤ × ℤ × ℤ

/-- Voxel index of a point (line 128: np.floor(points / voxel_size).astype(int)). -/
def voxelIndex (v : ℚ) (p : Pt) : Vox :=
  (⌊p.1 / v⌋, ⌊p.2.1 / v⌋, ⌊p.2.2 / v⌋)

/-- Lexicographic order on voxel rows, the order used by np.unique(axis=0). -/
def voxLe (a b : Vox) : Prop :=
  a.1 < b.1 ∨ (a.1 = b.1 ∧ (a.2.1 < b.2.1 ∨ (a.2.1 = b.2.1 ∧ a.2.2 ≤ b.2.2)))

instance : DecidableRel voxLe := fun a b => by
  unfold voxLe; infer_instance

instance : IsTotal Vox voxLe := ⟨fun a b => by unfold voxLe; omega⟩

instance : IsTrans Vox voxLe := ⟨fun a b c hab hbc => by
  unfold voxLe at *; omega⟩

/-- The lexicographically sorted list of distinct voxel indices of a cloud,
as returned by np.unique(voxel_indices, axis=0). -/
def uniqueSortedVoxels (v : ℚ) (P : List Pt) : List Vox :=
  List.insertionSort voxLe (P.map (voxelIndex v)).dedup

/-- The first point of the cloud falling in a given voxel: the point
selected by return_index=True for that voxel row. -/
def firstWithVoxel (v : ℚ) (P : List Pt) (u : Vox) : Pt :=
  (P.find? fun p => decide (voxelIndex v p = u)).getD (0, 0, 0)

/-- downsample_point_cloud (lines 128-133): one representative point per
distinct voxel index, the first encountered, ordered by sorted voxel row. -/
def downsample_point_cloud (v : ℚ) (P : List Pt) : List Pt :=
  (uniqueSortedVoxels v P).map (firstWithVoxel v P)

/-! ### COLMAP adapter (colmap/colmap_wrapper.py)

Each COLMAP stage runs an external process whose success is its exit
status, and export checks the filesystem.  These external outcomes are
the environment of the embedding. -/

/-- Outcomes of the external processes and filesystem checks that
full_reconstruction depends on. -/
structure ColmapEnv where
  /-- Exit status of the feature_extractor process (line 98). -/
  featOk : Bool
  /-- Exit status of the exhaustive_matcher process (line 122). -/
  matchOk : Bool
  /-- Exit status of the mapper process (line 148). -/
  mapperOk : Bool
  /-- Whether sparse/0 exists (checked at line 161 and line 237). -/
  sparseZeroExists : Bool
  /-- Exit status of the image_undistorter process (line 173). -/
  undistortOk : Bool
  /-- Exit status of the patch_match_stereo process (line 199). -/
  stereoOk : Bool
  /-- Exit status of the stereo_fusion process (line 215). -/
  fusionOk : Bool
  /-- Whether dense/fused.ply exists (checked at line 231, and again by
  routes.py line 307). -/
  denseFusedExists : Bool
  /-- Exit status of the model_converter process (line 250). -/
  converterOk : Bool
  deriving DecidableEq

/-- feature_extraction (lines 75-98). -/
def feature_extraction (e : ColmapEnv) : Bool := e.featOk

/-- feature_matching (lines 100-122). -/
def feature_matching (e : ColmapEnv) : Bool := e.matchOk

/-- sparse_reconstruction (lines 124-148). -/
def sparse_reconstruction (e : ColmapEnv) : Bool := e.mapperOk

/-- image_undistortion (lines 150-173): fails early when sparse/0 is
missing, otherwise the undistorter exit status decides. -/
def image_undistortion (e : ColmapEnv) : Bool :=
  e.sparseZeroExists && e.undistortOk

/-- dense_reconstruction (lines 175-215): stereo matching then fusion;
either process failing fails the stage. -/
def dense_reconstruction (e : ColmapEnv) : Bool :=
  e.stereoOk && e.fusionOk

/-- export_model (lines 217-253): prefer dense/fused.ply when it exists;
otherwise require sparse/0 and run model_converter, whose exit status
decides whether workspace/model.ply is produced. -/
def export_model (e : ColmapEnv) : Option String :=
  if e.denseFusedExists then some "dense/fused.ply"
  else if e.sparseZeroExists then
    (if e.converterOk then some "model.ply" else none)
  else none

/-- Result record of full_reconstruction (lines 265-270). -/
structure RecResult where
  success : Bool
  steps_completed : List String
  errors : List String
  outputModel : Option String
  deriving DecidableEq

/-- full_reconstruction (lines 255-320): the four sparse stages abort on
failure with exactly that stage error; a dense failure is recorded but
execution continues to export, and success is decided by export alone. -/
def full_reconstruction (e : ColmapEnv) : RecResult :=
  if feature_extraction e = false then
    { success := false, steps_completed := [],
      errors := ["Feature extraction failed"], outputModel := none }
  else if feature_matching e = false then
    { success := false, steps_completed := ["feature_extraction"],
      errors := ["Feature matching failed"], outputModel := none }
  else if sparse_reconstruction e = false then
    { success := false,
      steps_completed := ["feature_extraction", "feature_matching"],
      errors := ["Sparse reconstruction failed"], outputModel := none }
  else if image_undistortion e = false then
    { success := false,
      steps_completed :=
        ["feature_extraction", "feature_matching", "sparse_reconstruction"],
      errors := ["Image undistortion failed"], outputModel := none }
  else
    let steps4 :=
      ["feature_extraction", "feature_matching", "sparse_reconstruction",
       "image_undistortion"]
    let steps5 :=
      if dense_reconstruction e then steps4 ++ ["dense_reconstruction"]
      else steps4
    let errs5 :=
      if dense_reconstruction e then ([] : List String)
      else ["Dense reconstruction failed"]
    match export_model e with
    | some p =>
        { success := true, steps_completed := steps5, errors := errs5,
          outputModel := some p }
    | none =>
        { success := false, steps_completed := steps5, errors := errs5,
          outputModel := none }

/-! ### Session data model (api/routes.py)

start_session (lines 64-72) stores a dictionary with exactly the keys
project_name, room_type, folder, images, annotations, created_at and
status.  Crucially, no session_id key is stored; run_reconstruction
reads session with key session_id at line 343, which is embedded below
by sessionGet returning none for that key. -/

/-- Metadata stored per uploaded image (routes.py lines 141-149). -/
structure ImageInfo where
  filename : String
  classification : String
  transcript : String
  posePosition : List ℚ
  confidence : ℚ
  deriving DecidableEq

/-- A defect marker record appended on non-benign classifications
(routes.py lines 157-162). -/
structure AnnRecord where
  position : List ℚ
  classification : String
  transcript : String
  image_index : Nat
  deriving DecidableEq

/-- The per-session dictionary written by start_session (lines 64-72).
The field set is exactly the key set of the source dictionary. -/
structure Session where
  project_name : String
  room_type : String
  folder : String
  images : List ImageInfo
  annotations : List AnnRecord
  created_at : Nat
  status : String
  deriving DecidableEq

/-- Values a session dictionary can hold. -/
inductive SessionValue
  | str (s : String)
  | nat (n : Nat)
  | imgs (l : List ImageInfo)
  | anns (l : List AnnRecord)
  deriving DecidableEq

/-- Dynamic key lookup on the session dictionary: some value for each
key start_session writes, none for every other key.  A none result
corresponds to a Python KeyError at the access site. -/
def sessionGet (s : Session) : String → Option SessionValue
  | "project_name" => some (.str s.project_name)
  | "room_type" => some (.str s.room_type)
  | "folder" => some (.str s.folder)
  | "images" => some (.imgs s.images)
  | "annotations" => some (.anns s.annotations)
  | "created_at" => some (.nat s.created_at)
  | "status" => some (.str s.status)
  | _ => none

/-! ### Image upload (routes.py, upload_image, lines 111-171) -/

/-- The request body of upload_image; image holds the base64 payload
(only its presence matters here), the remaining fields are the
metadata the source reads from the JSON body, with the source defaults
already applied by data.get. -/
structure UploadReq where
  image : String
  posePosition : List ℚ
  transcript : String
  classification : String
  confidence : ℚ
  deriving DecidableEq

/-- Zero-padded four-digit decimal rendering, as the Python format
specifier 04d produces for the image counts admitted by the session
capacity check. -/
def padZeros4 (n : Nat) : String :=
  let s := toString n
  String.mk (List.replicate (4 - s.length) '0') ++ s

/-- Stored filename for the n-th image (line 134). -/
def imageFilename (n : Nat) : String :=
  "img_" ++ padZeros4 n ++ ".jpg"

/-- Python str.lower(): lower-case every character. -/
def lowerString (s : String) : String :=
  String.mk (s.data.map Char.toLower)

/-- The benign classification set of line 155: the lower-cased
classification is plain, normal or unknown. -/
def isBenignClass (c : String) : Bool :=
  lowerString c = "plain" || lowerString c = "normal" ||
    lowerString c = "unknown"

/-- Whether an upload appends a defect record (line 155: a non-empty,
non-benign classification). -/
def addsAnnRecord (c : String) : Bool :=
  decide (c ≠ "") && !(isBenignClass c)

/-- The session mutation of an upload that passed validation: append
the ImageRecord (line 151) and, for a non-benign classification, the
defect record referencing image index n (lines 155-162).  The index n
is the image count read at line 133, passed in explicitly because the
racy two-phase model below reads it in an earlier step. -/
def commitUpload (s : Session) (r : UploadReq) (n : Nat) : Session :=
  let info : ImageInfo :=
    { filename := imageFilename n, classification := r.classification,
      transcript := r.transcript, posePosition := r.posePosition,
      confidence := r.confidence }
  let s1 := { s with images := s.images ++ [info] }
  if addsAnnRecord r.classification then
    { s1 with annotations := s1.annotations ++
        [{ position := r.posePosition, classification := r.classification,
           transcript := r.transcript, image_index := n }] }
  else s1

/-- Response of upload_image. -/
structure UploadResp where
  success : Bool
  image_count : Nat
  annotation_count : Nat
  error : Option String
  deriving DecidableEq

/-- upload_image on a valid session (lines 118-171): capacity check,
image presence check, then filename from the current count and the
commit.  The file write of lines 137-138 silently overwrites any
existing file of the same name. -/
def upload_image (s : Session) (r : UploadReq) : Session × UploadResp :=
  if maxImagesPerSession ≤ s.images.length then
    (s, { success := false, image_count := s.images.length,
          annotation_count := s.annotations.length,
          error := some "Maximum 200 images per session" })
  else if r.image = "" then
    (s, { success := false, image_count := s.images.length,
          annotation_count := s.annotations.length,
          error := some "No image data provided" })
  else
    let s2 := commitUpload s r s.images.length
    (s2, { success := true, image_count := s2.images.length,
           annotation_count := s2.annotations.length, error := none })

/-! ### The two-phase race model of concurrent uploads

The source computes img_num = len(images) at line 133, then writes the
image file to disk (lines 137-138, I/O that releases the interpreter
lock), and only afterwards appends to the images list at line 151.
Two concurrent uploads to the same session therefore interleave as two
threads each executing phase 1 (validate, read the count, write the
file) and phase 2 (append).  A schedule is the order in which the two
threads take their steps. -/

/-- State of two in-flight uploads to one shared session. -/
structure RaceState where
  sess : Session
  pc1 : Nat
  pc2 : Nat
  count1 : Option Nat
  count2 : Option Nat
  deriving DecidableEq

/-- One scheduler step: false steps thread 1, true steps thread 2.
Phase 0 validates and records the current image count (the filename
source); phase 1 commits the append using the recorded count. -/
def raceStep (r1 r2 : UploadReq) (st : RaceState) (who : Bool) : RaceState :=
  if who = false then
    if st.pc1 = 0 then
      (if maxImagesPerSession ≤ st.sess.images.length ∨ r1.image = "" then
        { st with pc1 := 2 }
      else
        { st with count1 := some st.sess.images.length, pc1 := 1 })
    else if st.pc1 = 1 then
      { st with sess := commitUpload st.sess r1 (st.count1.getD 0), pc1 := 2 }
    else st
  else
    if st.pc2 = 0 then
      (if maxImagesPerSession ≤ st.sess.images.length ∨ r2.image = "" then
        { st with pc2 := 2 }
      else
        { st with count2 := some st.sess.images.length, pc2 := 1 })
    else if st.pc2 = 1 then
      { st with sess := commitUpload st.sess r2 (st.count2.getD 0), pc2 := 2 }
    else st

/-- Run a schedule of interleaved steps from a starting session. -/
def runRace (r1 r2 : UploadReq) (s0 : Session) (sched : List Bool) : RaceState :=
  sched.foldl (raceStep r1 r2) { sess := s0, pc1 := 0, pc2 := 0,
                                 count1 := none, count2 := none }

/-- Stored filename chosen by thread i in a completed race. -/
def raceFilename (c : Option Nat) : Option String :=
  c.map imageFilename

/-! ### The background job body (routes.py, run_reconstruction) -/

/-- Outcome of the post-processing pipeline on a loadable input file:
process_full_pipeline of model_processor.py, abstracted to its overall
success and error list.  When the input file does not exist,
load_point_cloud and load_mesh both fail (PlyData.read and
trimesh.load raise, caught at lines 76 and 102 of model_processor.py)
and the pipeline returns failure with the error Failed to load model,
independent of this record. -/
structure ProcEnv where
  processOk : Bool
  processErrors : List String
  deriving DecidableEq

/-- The reconstruction status record (routes.py lines 228-236 for the
initial value, mutated in place by run_reconstruction). -/
structure JobStatus where
  session_id : String
  status : String
  progress : Nat
  message : String
  started_at : Nat
  current_step : Option String
  errors : List String
  output_files : Option (List (String × String))
  completed_at : Bool
  deriving DecidableEq

/-- The status record created by start_reconstruction (lines 228-236). -/
def initialJobStatus (sid : String) (now : Nat) : JobStatus :=
  { session_id := sid, status := "queued", progress := 0,
    message := "Initializing reconstruction...", started_at := now,
    current_step := none, errors := [], output_files := none,
    completed_at := false }

/-- The except branch of run_reconstruction (lines 369-373): status
failed, failure message, error appended. -/
def failJob (st : JobStatus) (msg : String) : JobStatus :=
  { st with status := "failed",
            message := "Reconstruction failed: " ++ msg,
            errors := st.errors ++ [msg] }

/-- Marker count produced by the marker step (routes.py lines 321-323
with model_processor.py add_crack_markers lines 340-365): one sphere
per entry of the live annotations list, none when the list is empty. -/
def jobMarkerCount (s : Session) : Nat :=
  if s.annotations.isEmpty then 0 else s.annotations.length

/-- run_reconstruction (routes.py lines 265-373), as a function of the
session value the thread observes when it reads the shared dictionary.
Key embedded facts, traceable to the source:
* line 312 constructs ModelProcessor on the dense path
  session_folder/dense/fused.ply unconditionally; the sparse fallback
  variable of line 309 is never used, so when dense/fused.ply does not
  exist the processing step cannot load a model and fails;
* line 343 reads session with key session_id, which start_session
  never stores, so metadata construction raises KeyError whenever it
  is reached; the Python message str(e) is embedded as the string
  KeyError: session_id. -/
def run_reconstruction (recon_id : String) (session : Session)
    (e : ColmapEnv) (pe : ProcEnv) (st0 : JobStatus) : JobStatus :=
  let st1 := { st0 with status := "running", current_step := some "colmap",
                        message := "Running COLMAP reconstruction...",
                        progress := 10 }
  let cr := full_reconstruction e
  if cr.success = false then
    failJob st1 ("COLMAP failed: " ++ String.intercalate ", " cr.errors)
  else
    let st3 := { st1 with progress := 70, current_step := some "processing",
                          message := "Processing 3D model..." }
    let procErrors :=
      if e.denseFusedExists then pe.processErrors
      else ["Failed to load model"]
    let procSuccess := e.denseFusedExists && pe.processOk
    if procSuccess = false then
      failJob st3 ("Processing failed: " ++ String.intercalate ", " procErrors)
    else
      let st5 := { st3 with progress := 90,
                            message := if session.annotations.isEmpty
                                       then st3.message
                                       else "Adding crack markers..." }
      let st7 := { st5 with progress := 95,
                            message := "Saving final model..." }
      match sessionGet session "session_id" with
      | none => failJob st7 "KeyError: session_id"
      | some _ =>
          { st7 with status := "completed", progress := 100,
                     message := "3D reconstruction completed successfully!",
                     output_files := some
                       [("ply", recon_id ++ "/model.ply"),
                        ("obj", recon_id ++ "/model.obj"),
                        ("glb", recon_id ++ "/model.glb"),
                        ("metadata", recon_id ++ "/metadata.json")],
                     completed_at := true }

/-! ### Registry-level operations (start_session, start_reconstruction) -/

/-- The two module-level registries of routes.py (lines 30-31),
embedded as association lists with Python dictionary semantics. -/
structure ApiState where
  active_sessions : List (String × Session)
  reconstruction_status : List (String × JobStatus)
  deriving DecidableEq

/-- Python dictionary assignment: replace the value of an existing key
in place, append a fresh key at the end. -/
def dictInsert (l : List (String × α)) (k : String) (v : α) :
    List (String × α) :=
  if (l.lookup k).isSome then
    l.map fun kv => if kv.1 = k then (k, v) else kv
  else l ++ [(k, v)]

/-- Request body of start_session. -/
structure StartSessionReq where
  project_name : Option String
  room_type : Option String
  deriving DecidableEq

/-- The session record start_session stores (lines 64-72), given the
integer wall-clock second now = int(time.time()). -/
def sessionFromReq (r : StartSessionReq) (now : Nat) : Session :=
  { project_name := r.project_name.getD ("project_" ++ toString now),
    room_type := r.room_type.getD "unknown",
    folder := "sessions/session_" ++ toString now,
    images := [], annotations := [], created_at := now,
    status := "active" }

/-- start_session (lines 52-80): the session id is derived solely from
the integer second, and the record is stored by dictionary assignment. -/
def start_session (st : ApiState) (now : Nat) (r : StartSessionReq) :
    ApiState × String :=
  let sid := "session_" ++ toString now
  ({ st with active_sessions :=
       dictInsert st.active_sessions sid (sessionFromReq r now) }, sid)

/-- Response of start_reconstruction, plus whether the background
thread was started (line 244). -/
structure StartReconResp where
  success : Bool
  error : Option String
  reconstruction_id : Option String
  estimated_time_minutes : Option Nat
  threadStarted : Bool
  deriving DecidableEq

/-- Quality multiplier of line 248 (unrecognized values default to 1). -/
def qualityMultiplier (quality : String) : ℚ :=
  if quality = "high" then 2 else if quality = "low" then 1 / 2 else 1

/-- Estimated minutes of lines 246-249: half a minute per image times
the quality multiplier, divided by 60 and truncated by int(). -/
def estimatedTimeMinutes (numImages : Nat) (quality : String) : Nat :=
  (⌊(numImages / 2 : ℚ) * qualityMultiplier quality / 60⌋).toNat

/-- start_reconstruction (lines 197-258): validate the session id,
then the minimum image count; only past both checks is a job record
allocated and the background thread started. -/
def start_reconstruction (st : ApiState) (now : Nat) (sid : String)
    (quality : String) : ApiState × StartReconResp :=
  match st.active_sessions.lookup sid with
  | none =>
      (st, { success := false, error := some "Invalid session ID",
             reconstruction_id := none, estimated_time_minutes := none,
             threadStarted := false })
  | some session =>
      if session.images.length < minImagesForReconstruction then
        (st, { success := false,
               error := some ("Need at least " ++
                 toString minImagesForReconstruction ++ " images"),
               reconstruction_id := none, estimated_time_minutes := none,
               threadStarted := false })
      else
        let rid := "recon_" ++ toString now
        let reg := dictInsert st.reconstruction_status rid
          (initialJobStatus sid now)
        ({ st with reconstruction_status := reg },
         { success := true, error := none, reconstruction_id := some rid,
           estimated_time_minutes :=
             some (estimatedTimeMinutes session.images.length quality),
           threadStarted := true })

/-! ### Outlier removal (model_processor.py, remove_outliers, lines 147-212)

The statistical strategy queries a k-d tree for the nb_neighbors+1
nearest neighbors of every point (line 176).  Scipy returns the sorted
distances and pads missing neighbors with infinite distances when the
tree holds fewer points than requested, and numpy aggregates then
follow IEEE arithmetic: a mean over a row containing infinity is
infinity, the standard deviation of such rows is nan, and every
comparison against nan is false.  Coordinates are embedded as real
numbers and the aggregate arithmetic over the extended value type
FVal, with constructors for finite values, the two infinities and nan
and the IEEE propagation rules of the operations the source uses. -/

/-- A 3D point with real coordinates. -/
abbrev PtR := ℝ × ℝ × ℝ

/-- IEEE extended values: finite, plus infinity, minus infinity, nan. -/
inductive FVal
  | nan
  | inf
  | ninf
  | fin (x : ℝ)

namespace FVal

/-- IEEE addition. -/
noncomputable def add : FVal → FVal → FVal
  | nan, _ => nan
  | _, nan => nan
  | inf, ninf => nan
  | ninf, inf => nan
  | inf, _ => inf
  | _, inf => inf
  | ninf, _ => ninf
  | _, ninf => ninf
  | fin x, fin y => fin (x + y)

/-- IEEE negation. -/
noncomputable def neg : FVal → FVal
  | nan => nan
  | inf => ninf
  | ninf => inf
  | fin x => fin (-x)

/-- IEEE subtraction. -/
noncomputable def sub (a b : FVal) : FVal := add a (neg b)

/-- IEEE multiplication (zero times infinity is nan). -/
noncomputable def mul : FVal → FVal → FVal
  | nan, _ => nan
  | _, nan => nan
  | inf, inf => inf
  | inf, ninf => ninf
  | ninf, inf => ninf
  | ninf, ninf => inf
  | inf, fin x => if 0 < x then inf else if x < 0 then ninf else nan
  | fin x, inf => if 0 < x then inf else if x < 0 then ninf else nan
  | ninf, fin x => if 0 < x then ninf else if x < 0 then inf else nan
  | fin x, ninf => if 0 < x then ninf else if x < 0 then inf else nan
  | fin x, fin y => fin (x * y)

/-- Division by a natural count, as numpy mean divides a sum by the
length; division by zero (the mean of an empty array) is nan. -/
noncomputable def divNat (a : FVal) (n : Nat) : FVal :=
  if n = 0 then nan
  else
    match a with
    | nan => nan
    | inf => inf
    | ninf => ninf
    | fin x => fin (x / n)

/-- Sum of a list of values. -/
noncomputable def sum (l : List FVal) : FVal := l.foldl add (fin 0)

/-- numpy mean: sum divided by length (nan on an empty array). -/
noncomputable def mean (l : List FVal) : FVal := divNat (sum l) l.length

/-- IEEE square root: nan below zero and on nan, infinity on infinity. -/
noncomputable def sqrtF : FVal → FVal
  | nan => nan
  | ninf => nan
  | inf => inf
  | fin x => if x < 0 then nan else fin (Real.sqrt x)

/-- IEEE strict less-than as a Boolean: false whenever nan is involved. -/
noncomputable def ltB : FVal → FVal → Bool
  | nan, _ => false
  | _, nan => false
  | ninf, ninf => false
  | ninf, _ => true
  | inf, _ => false
  | fin _, inf => true
  | fin _, ninf => false
  | fin x, fin y => decide (x < y)

/-- A value that is finite or plus infinity: the shape of every
k-d tree query distance (real distances plus the infinity padding). -/
def finOrInf (a : FVal) : Prop := (∃ y, a = fin y) ∨ a = inf

end FVal

/-- Euclidean distance between two points, the metric of the scipy
k-d tree queries. -/
noncomputable def distR (p q : PtR) : ℝ :=
  Real.sqrt ((p.1 - q.1) ^ 2 + (p.2.1 - q.2.1) ^ 2 + (p.2.2 - q.2.2) ^ 2)

/-- The sorted distances from a query point to every point of the
cloud (the query point itself is in the tree, so its zero
self-distance is among them). -/
noncomputable def sortedDists (P : List PtR) (p : PtR) : List ℝ :=
  List.insertionSort (· ≤ ·) (P.map (distR p))

/-- One row of tree.query(points, k=nb_neighbors+1) (line 176): the
nb_neighbors+1 smallest distances, padded with infinity when the cloud
holds fewer points than requested. -/
noncomputable def knnRow (P : List PtR) (nbNeighbors : Nat) (p : PtR) :
    List FVal :=
  List.take (nbNeighbors + 1)
    ((sortedDists P p).map FVal.fin ++ List.replicate (nbNeighbors + 1) FVal.inf)

/-- avg_distances for one point (line 177): the mean of the row with
its first column (the zero self-distance) dropped. -/
noncomputable def avgDist (P : List PtR) (nbNeighbors : Nat) (p : PtR) : FVal :=
  FVal.mean ((knnRow P nbNeighbors p).drop 1)

/-- numpy std: the square root of the mean squared deviation. -/
noncomputable def stdF (l : List FVal) : FVal :=
  FVal.sqrtF (FVal.mean (l.map fun a =>
    FVal.mul (FVal.sub a (FVal.mean l)) (FVal.sub a (FVal.mean l))))

/-- The discard threshold of lines 180-182:
mean(avg_distances) + std_ratio * std(avg_distances). -/
noncomputable def statThreshold (P : List PtR) (nbNeighbors : Nat)
    (ratio : ℝ) : FVal :=
  let A := P.map (avgDist P nbNeighbors)
  FVal.add (FVal.mean A) (FVal.mul (FVal.fin ratio) (stdF A))

/-- Keep the entries of a list whose mask bit is set:
points[mask] of lines 200-202. -/
def applyMask : List α → List Bool → List α
  | [], _ => []
  | _, [] => []
  | p :: ps, b :: bs =>
      if b then p :: applyMask ps bs else applyMask ps bs

/-- remove_outliers with method statistical (lines 169-184): keep the
points whose mean neighbor distance is below the threshold. -/
noncomputable def remove_outliers_statistical (P : List PtR)
    (nbNeighbors : Nat) (ratio : ℝ) : List PtR :=
  applyMask P (P.map fun p =>
    FVal.ltB (avgDist P nbNeighbors p) (statThreshold P nbNeighbors ratio))

/-- The neighbor count of tree.query_ball_point (line 192): the number
of cloud points within the radius of the query point, the query point
itself included. -/
noncomputable def ballCount (P : List PtR) (radius : ℝ) (p : PtR) : Nat :=
  P.countP fun q => decide (distR p q ≤ radius)

/-- remove_outliers with method radius (lines 186-194): keep the
points with at least nb_points neighbors within the radius. -/
noncomputable def remove_outliers_radius (P : List PtR) (radius : ℝ)
    (nbPoints : Nat) : List PtR :=
  applyMask P (P.map fun p => decide (nbPoints ≤ ballCount P radius p))

/-! ### Concrete inputs used by witnesses and counterexamples -/

/-- An empty active session. -/
def sessionEmpty : Session :=
  { project_name := "p", room_type := "unknown", folder := "f",
    images := [], annotations := [], created_at := 0, status := "active" }

/-- A session holding five images, below the reconstruction minimum. -/
def sessionFive : Session :=
  { sessionEmpty with
    images := List.replicate 5
      { filename := "img_0000.jpg", classification := "Unknown",
        transcript := "", posePosition := [], confidence := 0 } }

/-- A registry holding only the five-image session. -/
def apiStateFive : ApiState :=
  { active_sessions := [("session_1", sessionFive)],
    reconstruction_status := [] }

/-- An upload carrying a non-benign classification. -/
def reqCrack : UploadReq :=
  { image := "x", posePosition := [0, 0, 0], transcript := "",
    classification := "Major Crack", confidence := 1 }

/-- An upload carrying a benign classification. -/
def reqPlain : UploadReq :=
  { image := "y", posePosition := [1, 0, 0], transcript := "",
    classification := "Plain", confidence := 1 }

/-- Adapter environment of the sparse-fallback scenario: the four
sparse stages succeed, dense reconstruction fails, dense/fused.ply is
absent, sparse/0 exists and the model converter succeeds. -/
def envSparseFallback : ColmapEnv :=
  { featOk := true, matchOk := true, mapperOk := true,
    sparseZeroExists := true, undistortOk := true, stereoOk := false,
    fusionOk := true, denseFusedExists := false, converterOk := true }

/-- Adapter environment where every stage succeeds and the dense fused
point cloud exists. -/
def envAllOk : ColmapEnv :=
  { featOk := true, matchOk := true, mapperOk := true,
    sparseZeroExists := true, undistortOk := true, stereoOk := true,
    fusionOk := true, denseFusedExists := true, converterOk := true }

/-- A post-processing environment that succeeds on any loadable file. -/
def procOk : ProcEnv := { processOk := true, processErrors := [] }

/-! ## Theorems

### Voxel downsampling: length bound and idempotence (claim C5) -/

theorem mem_uniqueSortedVoxels {v : ℚ} {P : List Pt} {u : Vox} :
    u ∈ uniqueSortedVoxels v P ↔ u ∈ P.map (voxelIndex v) := by
  unfold uniqueSortedVoxels
  rw [List.mem_insertionSort, List.mem_dedup]

theorem voxelIndex_firstWithVoxel {v : ℚ} {P : List Pt} {u : Vox}
    (h : u ∈ P.map (voxelIndex v)) :
    voxelIndex v (firstWithVoxel v P u) = u := by
  unfold firstWithVoxel
  obtain ⟨p, hp, hpu⟩ := List.mem_map.mp h
  have hs : (P.find? fun q => decide (voxelIndex v q = u)).isSome := by
    rw [List.find?_isSome]
    exact ⟨p, hp, by simp [hpu]⟩
  obtain ⟨q, hq⟩ := Option.isSome_iff_exists.mp hs
  have hqu := List.find?_some hq
  simp only [decide_eq_true_eq] at hqu
  simp [hq, hqu]

theorem map_voxelIndex_downsample (v : ℚ) (P : List Pt) :
    (downsample_point_cloud v P).map (voxelIndex v) = uniqueSortedVoxels v P := by
  unfold downsample_point_cloud
  rw [List.map_map]
  have h : ∀ u ∈ uniqueSortedVoxels v P,
      (voxelIndex v ∘ firstWithVoxel v P) u = id u := by
    intro u hu
    simp only [Function.comp_apply, id]
    exact voxelIndex_firstWithVoxel (mem_uniqueSortedVoxels.mp hu)
  rw [List.map_congr_left h, List.map_id]

theorem nodup_uniqueSortedVoxels (v : ℚ) (P : List Pt) :
    (uniqueSortedVoxels v P).Nodup :=
  (List.perm_insertionSort voxLe _).nodup_iff.mpr (List.nodup_dedup _)

theorem sorted_uniqueSortedVoxels (v : ℚ) (P : List Pt) :
    List.Sorted voxLe (uniqueSortedVoxels v P) :=
  List.sorted_insertionSort voxLe _

theorem uniqueSortedVoxels_downsample (v : ℚ) (P : List Pt) :
    uniqueSortedVoxels v (downsample_point_cloud v P) =
      uniqueSortedVoxels v P := by
  conv_lhs => rw [uniqueSortedVoxels]
  rw [map_voxelIndex_downsample,
      List.dedup_eq_self.mpr (nodup_uniqueSortedVoxels v P),
      List.Sorted.insertionSort_eq (sorted_uniqueSortedVoxels v P)]

theorem find?_rep_map (vox : Pt → Vox) (rep : Vox → Pt) :
    ∀ us : List Vox, us.Nodup → (∀ x ∈ us, vox (rep x) = x) →
      ∀ u ∈ us, (us.map rep).find? (fun p => decide (vox p = u)) =
        some (rep u) := by
  intro us
  induction us with
  | nil => intro _ _ u hu; cases hu
  | cons a t ih =>
    intro hnd hrep u hu
    rw [List.map_cons]
    rcases List.mem_cons.mp hu with heq | hut
    · subst heq
      rw [List.find?_cons_of_pos _
        (by simp [hrep u (List.mem_cons_self u t)])]
    · have hne : ¬ (vox (rep a) = u) := by
        rw [hrep a (List.mem_cons_self a t)]
        intro h
        exact (List.nodup_cons.mp hnd).1 (h ▸ hut)
      rw [List.find?_cons_of_neg _ (by simpa using hne)]
      exact ih (List.nodup_cons.mp hnd).2
        (fun x hx => hrep x (List.mem_cons_of_mem a hx)) u hut

theorem firstWithVoxel_downsample {v : ℚ} {P : List Pt} {u : Vox}
    (hu : u ∈ uniqueSortedVoxels v P) :
    firstWithVoxel v (downsample_point_cloud v P) u = firstWithVoxel v P u := by
  conv_lhs => rw [firstWithVoxel]
  rw [show downsample_point_cloud v P =
        (uniqueSortedVoxels v P).map (firstWithVoxel v P) from rfl,
      find?_rep_map (voxelIndex v) (firstWithVoxel v P) _
        (nodup_uniqueSortedVoxels v P)
        (fun x hx => voxelIndex_firstWithVoxel (mem_uniqueSortedVoxels.mp hx))
        u hu,
      Option.getD_some]

/-- C5: for every point cloud P and voxel size v > 0, voxel
downsampling returns at most as many points as it was given, and
downsampling the result again with the same voxel size leaves it
unchanged. -/
theorem C5_downsample_length_le_and_idempotent (v : ℚ) (P : List Pt)
    (_hv : 0 < v) :
    (downsample_point_cloud v P).length ≤ P.length ∧
      downsample_point_cloud v (downsample_point_cloud v P) =
        downsample_point_cloud v P := by
  constructor
  · unfold downsample_point_cloud uniqueSortedVoxels
    rw [List.length_map, List.length_insertionSort]
    calc (P.map (voxelIndex v)).dedup.length
        ≤ (P.map (voxelIndex v)).length := (List.dedup_sublist _).length_le
      _ = P.length := List.length_map _ _
  · conv_lhs => rw [downsample_point_cloud]
    rw [uniqueSortedVoxels_downsample,
        List.map_congr_left (fun u hu => firstWithVoxel_downsample hu)]
    rfl

/-- Witness for C5 at voxel size 1 on a two-point cloud. -/
theorem C5_downsample_length_le_and_idempotent_witness :
    (downsample_point_cloud 1 [((0 : ℚ), (0 : ℚ), (0 : ℚ)),
        ((1 : ℚ), (0 : ℚ), (0 : ℚ))]).length ≤
      ([((0 : ℚ), (0 : ℚ), (0 : ℚ)), ((1 : ℚ), (0 : ℚ), (0 : ℚ))] :
        List Pt).length ∧
      downsample_point_cloud 1 (downsample_point_cloud 1
          [((0 : ℚ), (0 : ℚ), (0 : ℚ)), ((1 : ℚ), (0 : ℚ), (0 : ℚ))]) =
        downsample_point_cloud 1
          [((0 : ℚ), (0 : ℚ), (0 : ℚ)), ((1 : ℚ), (0 : ℚ), (0 : ℚ))] :=
  C5_downsample_length_le_and_idempotent 1
    [((0 : ℚ), (0 : ℚ), (0 : ℚ)), ((1 : ℚ), (0 : ℚ), (0 : ℚ))]
    (by norm_num)

/-! ### COLMAP stage failures (claim C4) -/

/-- C4 (amended): in full_reconstruction, a failure of feature
extraction, feature matching, sparse reconstruction or image
undistortion returns immediately with success false and exactly that
stage error recorded, whereas a failure of the dense-reconstruction
stage is recorded in the error list but the result still has success
true exactly when the dense fused point cloud file exists or a sparse
model exists and its export through the model converter succeeds. -/
theorem C4_full_reconstruction_stage_failures (e : ColmapEnv) :
    (feature_extraction e = false →
      full_reconstruction e =
        { success := false, steps_completed := [],
          errors := ["Feature extraction failed"], outputModel := none }) ∧
    (feature_extraction e = true → feature_matching e = false →
      full_reconstruction e =
        { success := false, steps_completed := ["feature_extraction"],
          errors := ["Feature matching failed"], outputModel := none }) ∧
    (feature_extraction e = true → feature_matching e = true →
      sparse_reconstruction e = false →
      full_reconstruction e =
        { success := false,
          steps_completed := ["feature_extraction", "feature_matching"],
          errors := ["Sparse reconstruction failed"], outputModel := none }) ∧
    (feature_extraction e = true → feature_matching e = true →
      sparse_reconstruction e = true → image_undistortion e = false →
      full_reconstruction e =
        { success := false,
          steps_completed :=
            ["feature_extraction", "feature_matching",
             "sparse_reconstruction"],
          errors := ["Image undistortion failed"], outputModel := none }) ∧
    (feature_extraction e = true → feature_matching e = true →
      sparse_reconstruction e = true → image_undistortion e = true →
      dense_reconstruction e = false →
      "Dense reconstruction failed" ∈ (full_reconstruction e).errors ∧
        (full_reconstruction e).success =
          (e.denseFusedExists || (e.sparseZeroExists && e.converterOk))) := by
  refine ⟨?_, ?_, ?_, ?_, ?_⟩
  · intro h1
    simp [full_reconstruction, h1]
  · intro h1 h2
    simp [full_reconstruction, h1, h2]
  · intro h1 h2 h3
    simp [full_reconstruction, h1, h2, h3]
  · intro h1 h2 h3 h4
    simp [full_reconstruction, h1, h2, h3, h4]
  · intro h1 h2 h3 h4 h5
    have hs : e.sparseZeroExists = true := by
      have h4b : (e.sparseZeroExists && e.undistortOk) = true := by
        simpa [image_undistortion] using h4
      exact (Bool.and_eq_true_iff.mp h4b).1
    simp only [full_reconstruction, h1, h2, h3, h4, h5, Bool.false_eq_true,
      if_false, if_true, reduceIte]
    simp only [export_model, hs]
    cases hd : e.denseFusedExists <;> cases hc : e.converterOk <;> simp

/-- C4 witness: the dense-failure conjunct at an environment where the
four sparse stages succeed, dense fails and the converter succeeds. -/
theorem C4_full_reconstruction_stage_failures_witness :
    (let e : ColmapEnv :=
      { featOk := true, matchOk := true, mapperOk := true,
        sparseZeroExists := true, undistortOk := true, stereoOk := false,
        fusionOk := true, denseFusedExists := false, converterOk := true }
     "Dense reconstruction failed" ∈ (full_reconstruction e).errors ∧
       (full_reconstruction e).success =
         (e.denseFusedExists || (e.sparseZeroExists && e.converterOk))) := by
  exact (C4_full_reconstruction_stage_failures
    { featOk := true, matchOk := true, mapperOk := true,
      sparseZeroExists := true, undistortOk := true, stereoOk := false,
      fusionOk := true, denseFusedExists := false,
      converterOk := true }).2.2.2.2 rfl rfl rfl rfl rfl

/-- C4 counterexample: the four sparse stages succeed, dense
reconstruction fails, sparse/0 exists, dense/fused.ply does not, and
the model converter fails: a sparse model exists to export, yet
full_reconstruction reports success false, refuting the claim that
success is true whenever a sparse model exists. -/
theorem C4_sparse_exists_but_failure_counterexample :
    (let e : ColmapEnv :=
      { featOk := true, matchOk := true, mapperOk := true,
        sparseZeroExists := true, undistortOk := true, stereoOk := false,
        fusionOk := true, denseFusedExists := false, converterOk := false }
     feature_extraction e = true ∧ feature_matching e = true ∧
       sparse_reconstruction e = true ∧ image_undistortion e = true ∧
       dense_reconstruction e = false ∧ e.sparseZeroExists = true ∧
       "Dense reconstruction failed" ∈ (full_reconstruction e).errors ∧
       (full_reconstruction e).success = false) := by
  decide

/-! ### Registry helper -/

theorem lookup_dictInsert {α : Type} (l : List (String × α)) (k : String)
    (v : α) : (dictInsert l k v).lookup k = some v := by
  unfold dictInsert
  split_ifs with h
  · induction l with
    | nil => simp at h
    | cons a t ih =>
      obtain ⟨a1, a2⟩ := a
      rw [List.map_cons]
      by_cases hk : a1 = k
      · subst hk
        simp [List.lookup_cons]
      · have hne : (k == a1) = false := by simp [Ne.symm hk]
        have hx : (t.lookup k).isSome := by
          rw [List.lookup_cons, hne] at h
          exact h
        have hfa : (if (a1, a2).1 = k then (k, v) else (a1, a2)) = (a1, a2) := by
          simp [hk]
        rw [hfa, List.lookup_cons, hne]
        exact ih hx
  · rw [List.lookup_append]
    have hnone : l.lookup k = none := by
      cases hl : l.lookup k with
      | none => rfl
      | some b => exact absurd (by simp [hl]) h
    simp [hnone]

/-! ### start_session id collisions within one second (claim C10) -/

/-- C10: the session id returned by start_session is derived solely
from the integer wall-clock second; a second call in the same second
returns the same id, and its record replaces the first in the session
registry, so session ids are not unique. -/
theorem C10_same_second_session_id_collision (st : ApiState) (now : Nat)
    (r1 r2 : StartSessionReq) :
    (start_session st now r1).2 = "session_" ++ toString now ∧
      (start_session (start_session st now r1).1 now r2).2 =
        (start_session st now r1).2 ∧
      ((start_session (start_session st now r1).1 now r2).1).active_sessions.lookup
          ("session_" ++ toString now) = some (sessionFromReq r2 now) := by
  refine ⟨rfl, rfl, ?_⟩
  show (dictInsert _ ("session_" ++ toString now) (sessionFromReq r2 now)).lookup
      ("session_" ++ toString now) = some (sessionFromReq r2 now)
  exact lookup_dictInsert _ _ _

/-! ### start_reconstruction minimum image check (claim C8) -/

/-- C8: when the session exists but holds fewer images than the
configured minimum, start_reconstruction returns the insufficient
images error unchanged state: no job record is allocated and no
background thread is started, independent of the requested quality. -/
theorem C8_insufficient_images_no_job (st : ApiState) (now : Nat)
    (sid quality : String) (s : Session)
    (hfind : st.active_sessions.lookup sid = some s)
    (hlt : s.images.length < minImagesForReconstruction) :
    start_reconstruction st now sid quality =
      (st, { success := false,
             error := some ("Need at least " ++
               toString minImagesForReconstruction ++ " images"),
             reconstruction_id := none, estimated_time_minutes := none,
             threadStarted := false }) := by
  unfold start_reconstruction
  rw [hfind]
  simp [hlt]

/-- C8 witness: a registry holding one session with five images. -/
theorem C8_insufficient_images_no_job_witness :
    start_reconstruction apiStateFive 7 "session_1" "high" =
      (apiStateFive,
       { success := false,
         error := some ("Need at least " ++
           toString minImagesForReconstruction ++ " images"),
         reconstruction_id := none, estimated_time_minutes := none,
         threadStarted := false }) :=
  C8_insufficient_images_no_job apiStateFive 7 "session_1" "high"
    sessionFive (by decide) (by decide)

/-! ### The sparse-fallback job (claim C1) -/

/-- C1: evaluation at the failing input.  In the sparse-fallback
environment the adapter succeeds with the exported sparse model and
records only the dense failure, yet the orchestrator marks the job
failed: routes.py line 312 hands the post-processor the dense path
dense/fused.ply unconditionally (the sparse fallback variable of line
309 is never used), so with dense/fused.ply absent the processing
stage cannot load a model and the job never reaches completed. -/
theorem C1_sparse_fallback_job_fails :
    (full_reconstruction envSparseFallback).success = true ∧
      (full_reconstruction envSparseFallback).outputModel =
        some "model.ply" ∧
      "Dense reconstruction failed" ∈
        (full_reconstruction envSparseFallback).errors ∧
      (run_reconstruction "recon_1" sessionEmpty envSparseFallback procOk
          (initialJobStatus "session_1" 0)).status = "failed" ∧
      "Processing failed: Failed to load model" ∈
        (run_reconstruction "recon_1" sessionEmpty envSparseFallback procOk
          (initialJobStatus "session_1" 0)).errors := by
  decide

/-! ### Completion with metadata (claim C2) -/

/-- C2: evaluation at the failing input.  With every adapter stage and
the post-processing pipeline succeeding, the job still ends failed:
metadata construction (routes.py line 343) reads the session
dictionary with key session_id, which start_session (lines 64-72)
never stores, so the KeyError aborts the job after the mesh saves and
before metadata.json, progress 100 and completed are reached. -/
theorem C2_metadata_keyerror_job_fails :
    (full_reconstruction envAllOk).success = true ∧
      (envAllOk.denseFusedExists && procOk.processOk) = true ∧
      sessionGet sessionEmpty "session_id" = none ∧
      (run_reconstruction "recon_1" sessionEmpty envAllOk procOk
          (initialJobStatus "session_1" 0)).status = "failed" ∧
      (run_reconstruction "recon_1" sessionEmpty envAllOk procOk
          (initialJobStatus "session_1" 0)).errors =
        ["KeyError: session_id"] ∧
      (run_reconstruction "recon_1" sessionEmpty envAllOk procOk
          (initialJobStatus "session_1" 0)).output_files = none := by
  decide

/-! ### The job reads the live session, not a snapshot (claim C3) -/

/-- C3 counterexample: an upload with a non-benign classification that
completes after the job starts and before the marker step changes the
marker count the job observes: the count moves from 0 to 1, so the
job does not use the session state of job-start time. -/
theorem C3_live_session_counterexample :
    (upload_image sessionEmpty reqCrack).2.success = true ∧
      jobMarkerCount sessionEmpty = 0 ∧
      jobMarkerCount (upload_image sessionEmpty reqCrack).1 = 1 ∧
      ¬ (jobMarkerCount (upload_image sessionEmpty reqCrack).1 =
          jobMarkerCount sessionEmpty) := by
  decide

/-- C3 (amended): the job holds a reference to the live session
dictionary rather than a start-time snapshot: a successful upload
carrying a non-benign classification that lands before the marker
step raises the marker count the job observes to the post-upload
annotation count. -/
theorem C3_job_observes_live_session (s : Session) (u : UploadReq)
    (hcap : s.images.length < maxImagesPerSession) (himg : u.image ≠ "")
    (hcl : addsAnnRecord u.classification = true) :
    (upload_image s u).2.success = true ∧
      jobMarkerCount (upload_image s u).1 = s.annotations.length + 1 := by
  have h1 : ¬ (maxImagesPerSession ≤ s.images.length) := Nat.not_le.mpr hcap
  constructor
  · simp [upload_image, h1, himg]
  · simp [upload_image, h1, himg, commitUpload, hcl, jobMarkerCount]

/-- C3 witness: the amended statement at the empty session and the
non-benign upload. -/
theorem C3_job_observes_live_session_witness :
    (upload_image sessionEmpty reqCrack).2.success = true ∧
      jobMarkerCount (upload_image sessionEmpty reqCrack).1 =
        sessionEmpty.annotations.length + 1 :=
  C3_job_observes_live_session sessionEmpty reqCrack (by decide)
    (by decide) (by decide)

/-! ### Concurrent uploads to one session (claim C9) -/

theorem commitUpload_images (s : Session) (r : UploadReq) (n : Nat) :
    (commitUpload s r n).images = s.images ++
      [{ filename := imageFilename n, classification := r.classification,
         transcript := r.transcript, posePosition := r.posePosition,
         confidence := r.confidence }] := by
  unfold commitUpload
  split_ifs <;> rfl

/-- C9 counterexample: under the interleaving in which both uploads
read the image count before either appends (schedule: thread one
phase 1, thread two phase 1, thread one phase 2, thread two phase 2),
both uploads complete, the final image count is 2, but both store the
same filename img_0000.jpg, refuting that concurrent uploads to one
session never assign colliding filenames. -/
theorem C9_colliding_filenames_counterexample :
    (runRace reqCrack reqPlain sessionEmpty [false, true, false, true]).pc1
        = 2 ∧
      (runRace reqCrack reqPlain sessionEmpty
        [false, true, false, true]).pc2 = 2 ∧
      raceFilename (runRace reqCrack reqPlain sessionEmpty
        [false, true, false, true]).count1 = some "img_0000.jpg" ∧
      raceFilename (runRace reqCrack reqPlain sessionEmpty
        [false, true, false, true]).count2 = some "img_0000.jpg" ∧
      (runRace reqCrack reqPlain sessionEmpty
        [false, true, false, true]).sess.images.length = 2 := by
  decide

/-- C9 (amended): starting from a session with no images, two valid
uploads whose steps are serialized (the first append precedes the
second count read) store the distinct filenames img_0000.jpg and
img_0001.jpg and leave the image count at 2; but when both uploads
read the count before either appends, the computed filenames collide
(see the counterexample), so distinctness holds only for serialized
interleavings. -/
theorem C9_serialized_uploads_distinct (s : Session) (r1 r2 : UploadReq)
    (hs : s.images = []) (h1 : r1.image ≠ "") (h2 : r2.image ≠ "") :
    raceFilename (runRace r1 r2 s [false, false, true, true]).count1 =
        some "img_0000.jpg" ∧
      raceFilename (runRace r1 r2 s [false, false, true, true]).count2 =
        some "img_0001.jpg" ∧
      raceFilename (runRace r1 r2 s [false, false, true, true]).count1 ≠
        raceFilename (runRace r1 r2 s [false, false, true, true]).count2 ∧
      (runRace r1 r2 s [false, false, true, true]).sess.images.length = 2 := by
  have hst : runRace r1 r2 s [false, false, true, true] =
      { sess := commitUpload (commitUpload s r1 0) r2 1, pc1 := 2, pc2 := 2,
        count1 := some 0, count2 := some 1 } := by
    simp [runRace, raceStep, hs, h1, h2, commitUpload_images,
      maxImagesPerSession]
  rw [hst]
  have hf0 : imageFilename 0 = "img_0000.jpg" := by decide
  have hf1 : imageFilename 1 = "img_0001.jpg" := by decide
  refine ⟨?_, ?_, ?_, ?_⟩
  · simp [raceFilename, hf0]
  · simp [raceFilename, hf1]
  · simp only [raceFilename, Option.map_some, hf0, hf1]
    decide
  · simp [commitUpload_images, hs]

/-- C9 witness: the serialized run at the empty session with two
concrete valid uploads. -/
theorem C9_serialized_uploads_distinct_witness :
    raceFilename (runRace reqCrack reqPlain sessionEmpty
        [false, false, true, true]).count1 = some "img_0000.jpg" ∧
      raceFilename (runRace reqCrack reqPlain sessionEmpty
        [false, false, true, true]).count2 = some "img_0001.jpg" ∧
      raceFilename (runRace reqCrack reqPlain sessionEmpty
          [false, false, true, true]).count1 ≠
        raceFilename (runRace reqCrack reqPlain sessionEmpty
          [false, false, true, true]).count2 ∧
      (runRace reqCrack reqPlain sessionEmpty
        [false, false, true, true]).sess.images.length = 2 :=
  C9_serialized_uploads_distinct sessionEmpty reqCrack reqPlain
    (by decide) (by decide) (by decide)

/-! ### IEEE propagation facts for the outlier aggregates -/

theorem FVal.ltB_nan_right (a : FVal) : FVal.ltB a FVal.nan = false := by
  cases a <;> rfl

theorem FVal.ltB_ninf_right (a : FVal) : FVal.ltB a FVal.ninf = false := by
  cases a <;> rfl

theorem FVal.add_nan_right (a : FVal) : FVal.add a FVal.nan = FVal.nan := by
  cases a <;> rfl

theorem FVal.add_nan_left (b : FVal) : FVal.add FVal.nan b = FVal.nan := by
  cases b <;> rfl

theorem FVal.add_inf_of {a : FVal} (ha : a.finOrInf) :
    FVal.add a FVal.inf = FVal.inf := by
  rcases ha with ⟨y, rfl⟩ | rfl <;> rfl

theorem FVal.add_inf_left_of {b : FVal} (hb : b.finOrInf) :
    FVal.add FVal.inf b = FVal.inf := by
  rcases hb with ⟨y, rfl⟩ | rfl <;> rfl

theorem FVal.add_finOrInf {a b : FVal} (ha : a.finOrInf) (hb : b.finOrInf) :
    (FVal.add a b).finOrInf := by
  rcases ha with ⟨y, rfl⟩ | rfl <;> rcases hb with ⟨z, rfl⟩ | rfl
  · exact Or.inl ⟨y + z, rfl⟩
  · exact Or.inr rfl
  · exact Or.inr rfl
  · exact Or.inr rfl

theorem FVal.foldl_add_inf (l : List FVal) :
    ∀ acc : FVal, (∀ x ∈ l, x.finOrInf) → acc.finOrInf →
      (FVal.inf ∈ l ∨ acc = FVal.inf) → l.foldl FVal.add acc = FVal.inf := by
  induction l with
  | nil =>
      intro acc _ _ hin
      rcases hin with h | h
      · exact absurd h (List.not_mem_nil _)
      · simpa using h
  | cons x t ih =>
      intro acc hl hacc hin
      rw [List.foldl_cons]
      refine ih (FVal.add acc x)
        (fun z hz => hl z (List.mem_cons_of_mem x hz))
        (FVal.add_finOrInf hacc (hl x (List.mem_cons_self x t))) ?_
      rcases hin with hmem | rfl
      · rcases List.mem_cons.mp hmem with rfl | hmt
        · exact Or.inr (FVal.add_inf_of hacc)
        · exact Or.inl hmt
      · exact Or.inr (FVal.add_inf_left_of (hl x (List.mem_cons_self x t)))

theorem FVal.sum_inf (l : List FVal) (hl : ∀ x ∈ l, x.finOrInf)
    (hm : FVal.inf ∈ l) : FVal.sum l = FVal.inf :=
  FVal.foldl_add_inf l (FVal.fin 0) hl (Or.inl ⟨0, rfl⟩) (Or.inl hm)

theorem FVal.mean_inf (l : List FVal) (hl : ∀ x ∈ l, x.finOrInf)
    (hm : FVal.inf ∈ l) : FVal.mean l = FVal.inf := by
  unfold FVal.mean FVal.divNat
  rw [FVal.sum_inf l hl hm]
  have hlen : l.length ≠ 0 := by
    cases l with
    | nil => exact absurd hm (List.not_mem_nil _)
    | cons a t => simp
  simp [hlen]

theorem FVal.foldl_add_nan (l : List FVal) :
    l.foldl FVal.add FVal.nan = FVal.nan := by
  induction l with
  | nil => rfl
  | cons x t ih => rw [List.foldl_cons, FVal.add_nan_left]; exact ih

theorem FVal.foldl_add_nan_mem (l : List FVal) :
    ∀ acc : FVal, (FVal.nan ∈ l ∨ acc = FVal.nan) →
      l.foldl FVal.add acc = FVal.nan := by
  induction l with
  | nil =>
      intro acc hin
      rcases hin with h | h
      · exact absurd h (List.not_mem_nil _)
      · simpa using h
  | cons x t ih =>
      intro acc hin
      rw [List.foldl_cons]
      refine ih (FVal.add acc x) ?_
      rcases hin with hmem | rfl
      · rcases List.mem_cons.mp hmem with rfl | hmt
        · exact Or.inr (FVal.add_nan_right acc)
        · exact Or.inl hmt
      · exact Or.inr (FVal.add_nan_left x)

theorem FVal.sum_nan (l : List FVal) (hm : FVal.nan ∈ l) :
    FVal.sum l = FVal.nan :=
  FVal.foldl_add_nan_mem l (FVal.fin 0) (Or.inl hm)

theorem FVal.mean_nan (l : List FVal) (hm : FVal.nan ∈ l) :
    FVal.mean l = FVal.nan := by
  unfold FVal.mean FVal.divNat
  rw [FVal.sum_nan l hm]
  split_ifs <;> rfl

theorem FVal.mul_fin_inf_pos {r : ℝ} (h : 0 < r) :
    FVal.mul (FVal.fin r) FVal.inf = FVal.inf := by
  simp [FVal.mul, h]

theorem FVal.mul_fin_inf_neg {r : ℝ} (h : r < 0) :
    FVal.mul (FVal.fin r) FVal.inf = FVal.ninf := by
  have h2 : ¬ (0 < r) := by linarith
  simp [FVal.mul, h, h2]

theorem FVal.mul_fin_inf_zero :
    FVal.mul (FVal.fin 0) FVal.inf = FVal.nan := by
  simp [FVal.mul]

theorem FVal.mul_fin_nan (r : ℝ) :
    FVal.mul (FVal.fin r) FVal.nan = FVal.nan := rfl

/-- Monotonicity of the mask comparison in the std ratio: the
threshold mean + ratio * sqrt(variance) only moves up (in the IEEE
order, nan making every comparison false) when the ratio grows. -/
theorem ltB_statThreshold_mono (m w a : FVal) (r1 r2 : ℝ) (hr : r1 ≤ r2)
    (h : FVal.ltB a (FVal.add m (FVal.mul (FVal.fin r1) (FVal.sqrtF w))) =
      true) :
    FVal.ltB a (FVal.add m (FVal.mul (FVal.fin r2) (FVal.sqrtF w))) =
      true := by
  cases w with
  | nan =>
      rw [show FVal.sqrtF FVal.nan = FVal.nan from rfl, FVal.mul_fin_nan,
        FVal.add_nan_right, FVal.ltB_nan_right] at h
      exact absurd h (by simp)
  | ninf =>
      rw [show FVal.sqrtF FVal.ninf = FVal.nan from rfl, FVal.mul_fin_nan,
        FVal.add_nan_right, FVal.ltB_nan_right] at h
      exact absurd h (by simp)
  | inf =>
      rw [show FVal.sqrtF FVal.inf = FVal.inf from rfl] at h ⊢
      rcases lt_trichotomy r1 0 with h1 | h1 | h1
      · rw [FVal.mul_fin_inf_neg h1] at h
        cases m <;>
          simp only [FVal.add, FVal.ltB_nan_right, FVal.ltB_ninf_right] at h <;>
          exact absurd h (by simp)
      · subst h1
        rw [FVal.mul_fin_inf_zero, FVal.add_nan_right, FVal.ltB_nan_right] at h
        exact absurd h (by simp)
      · have h2 : 0 < r2 := lt_of_lt_of_le h1 hr
        rw [FVal.mul_fin_inf_pos h1] at h
        rw [FVal.mul_fin_inf_pos h2]
        cases m with
        | nan => rw [FVal.add_nan_left, FVal.ltB_nan_right] at h
                 exact absurd h (by simp)
        | ninf => rw [show FVal.add FVal.ninf FVal.inf = FVal.nan from rfl,
                    FVal.ltB_nan_right] at h
                  exact absurd h (by simp)
        | inf => exact h
        | fin m0 => exact h
  | fin x =>
      by_cases hx : x < 0
      · rw [show FVal.sqrtF (FVal.fin x) = FVal.nan from by
            simp [FVal.sqrtF, hx], FVal.mul_fin_nan, FVal.add_nan_right,
          FVal.ltB_nan_right] at h
        exact absurd h (by simp)
      · have hsq : FVal.sqrtF (FVal.fin x) = FVal.fin (Real.sqrt x) := by
          simp [FVal.sqrtF, hx]
        have hs : 0 ≤ Real.sqrt x := Real.sqrt_nonneg x
        rw [hsq] at h ⊢
        rw [show FVal.mul (FVal.fin r1) (FVal.fin (Real.sqrt x)) =
            FVal.fin (r1 * Real.sqrt x) from rfl] at h
        rw [show FVal.mul (FVal.fin r2) (FVal.fin (Real.sqrt x)) =
            FVal.fin (r2 * Real.sqrt x) from rfl]
        cases m with
        | nan => rw [FVal.add_nan_left, FVal.ltB_nan_right] at h
                 exact absurd h (by simp)
        | inf => exact h
        | ninf => rw [show FVal.add FVal.ninf (FVal.fin (r1 * Real.sqrt x)) =
                      FVal.ninf from rfl, FVal.ltB_ninf_right] at h
                  exact absurd h (by simp)
        | fin m0 =>
            rw [show FVal.add (FVal.fin m0) (FVal.fin (r1 * Real.sqrt x)) =
                FVal.fin (m0 + r1 * Real.sqrt x) from rfl] at h
            rw [show FVal.add (FVal.fin m0) (FVal.fin (r2 * Real.sqrt x)) =
                FVal.fin (m0 + r2 * Real.sqrt x) from rfl]
            cases a with
            | nan => exact absurd h (by simp [FVal.ltB])
            | inf => exact absurd h (by simp [FVal.ltB])
            | ninf => rfl
            | fin a0 =>
                simp only [FVal.ltB, decide_eq_true_eq] at h ⊢
                have : r1 * Real.sqrt x ≤ r2 * Real.sqrt x :=
                  mul_le_mul_of_nonneg_right hr hs
                linarith

theorem applyMask_sublist (P : List α) (f g : α → Bool)
    (h : ∀ p, f p = true → g p = true) :
    List.Sublist (applyMask P (P.map f)) (applyMask P (P.map g)) := by
  induction P with
  | nil => exact List.Sublist.refl _
  | cons p ps ih =>
      rw [List.map_cons, List.map_cons]
      by_cases hf : f p = true
      · rw [show applyMask (p :: ps) (f p :: ps.map f) =
              p :: applyMask ps (ps.map f) from by simp [applyMask, hf],
            show applyMask (p :: ps) (g p :: ps.map g) =
              p :: applyMask ps (ps.map g) from by simp [applyMask, h p hf]]
        exact ih.cons₂ p
      · rw [show applyMask (p :: ps) (f p :: ps.map f) =
              applyMask ps (ps.map f) from by
            simp [applyMask, Bool.eq_false_iff.mpr hf]]
        by_cases hg : g p = true
        · rw [show applyMask (p :: ps) (g p :: ps.map g) =
                p :: applyMask ps (ps.map g) from by simp [applyMask, hg]]
          exact ih.cons p
        · rw [show applyMask (p :: ps) (g p :: ps.map g) =
                applyMask ps (ps.map g) from by
              simp [applyMask, Bool.eq_false_iff.mpr hg]]
          exact ih

theorem applyMask_map_false (P : List α) (f : α → Bool)
    (h : ∀ p ∈ P, f p = false) : applyMask P (P.map f) = [] := by
  induction P with
  | nil => rfl
  | cons p ps ih =>
      rw [List.map_cons,
        show applyMask (p :: ps) (f p :: ps.map f) =
          applyMask ps (ps.map f) from by
            simp [applyMask, h p (List.mem_cons_self p ps)]]
      exact ih fun z hz => h z (List.mem_cons_of_mem p hz)

/-! ### Statistical outlier removal is monotone in std ratio (claim C6) -/

/-- C6: for every point cloud, neighbor count and pair of ratios
r1 <= r2, every point retained by statistical outlier removal at
std_ratio r1 is also retained at std_ratio r2: the discard threshold
mean + std_ratio * std is monotone in the ratio. -/
theorem C6_remove_outliers_statistical_monotone (P : List PtR)
    (nbNeighbors : Nat) (r1 r2 : ℝ) (hr : r1 ≤ r2) :
    remove_outliers_statistical P nbNeighbors r1 ⊆
      remove_outliers_statistical P nbNeighbors r2 := by
  unfold remove_outliers_statistical
  refine List.Sublist.subset (applyMask_sublist P _ _ ?_)
  intro p hp
  simp only [statThreshold, stdF] at hp ⊢
  exact ltB_statThreshold_mono _ _ _ r1 r2 hr hp

/-- C6 witness at a two-point cloud and ratios 1 and 2. -/
theorem C6_remove_outliers_statistical_monotone_witness :
    remove_outliers_statistical
        [((0 : ℝ), (0 : ℝ), (0 : ℝ)), ((1 : ℝ), (0 : ℝ), (0 : ℝ))] 20 1 ⊆
      remove_outliers_statistical
        [((0 : ℝ), (0 : ℝ), (0 : ℝ)), ((1 : ℝ), (0 : ℝ), (0 : ℝ))] 20 2 :=
  C6_remove_outliers_statistical_monotone _ 20 1 2 (by norm_num)

/-! ### Outlier removal on deficient clouds (claim C7) -/

theorem knnRow_finOrInf (P : List PtR) (k : Nat) (p : PtR) :
    ∀ x ∈ knnRow P k p, x.finOrInf := by
  intro x hx
  unfold knnRow at hx
  have hx2 := List.take_subset _ _ hx
  rcases List.mem_append.mp hx2 with hA | hB
  · obtain ⟨y, _, rfl⟩ := List.mem_map.mp hA
    exact Or.inl ⟨y, rfl⟩
  · exact Or.inr (List.mem_replicate.mp hB).2

/-- When the cloud holds fewer points than the neighbor count, every
row of the k-d tree query is padded with infinite distances, so every
mean neighbor distance is infinite. -/
theorem avgDist_eq_inf (P : List PtR) (k : Nat) (p : PtR)
    (h1 : 1 ≤ P.length) (hk : P.length < k) :
    avgDist P k p = FVal.inf := by
  have hlenA : ((sortedDists P p).map FVal.fin).length = P.length := by
    unfold sortedDists
    rw [List.length_map, List.length_insertionSort, List.length_map]
  unfold avgDist
  apply FVal.mean_inf
  · intro x hx
    exact knnRow_finOrInf P k p x (List.drop_subset 1 _ hx)
  · unfold knnRow
    rw [List.take_append_eq_append_take, hlenA,
        List.take_of_length_le (by rw [hlenA]; omega),
        List.take_replicate]
    rw [List.drop_append_eq_append_drop, hlenA,
        show 1 - P.length = 0 from by omega, List.drop_zero]
    apply List.mem_append_right
    rw [List.mem_replicate]
    constructor
    · omega
    · rfl

/-- C7: on a cloud that is empty or smaller than the neighbor count,
both outlier-removal strategies run to completion and return the
empty cloud (for the empty input this is also the input unchanged):
the statistical threshold degenerates to nan, which discards every
point, and the radius count can never reach nb_points. -/
theorem C7_remove_outliers_small_clouds (P : List PtR) (nbNeighbors : Nat)
    (ratio radius : ℝ) (nbPoints : Nat)
    (hstat : P = [] ∨ P.length < nbNeighbors)
    (hrad : P = [] ∨ P.length < nbPoints) :
    remove_outliers_statistical P nbNeighbors ratio = [] ∧
      remove_outliers_radius P radius nbPoints = [] := by
  constructor
  · by_cases hP : P = []
    · subst hP; rfl
    · rcases hstat with rfl | hk
      · rfl
      · have h1 : 1 ≤ P.length := by
          cases P with
          | nil => exact absurd rfl hP
          | cons a t => simp
        have havg : ∀ p ∈ P, avgDist P nbNeighbors p = FVal.inf :=
          fun p _ => avgDist_eq_inf P nbNeighbors p h1 hk
        have hAne : FVal.inf ∈ P.map (avgDist P nbNeighbors) := by
          cases P with
          | nil => exact absurd rfl hP
          | cons a t =>
              rw [List.map_cons,
                havg a (List.mem_cons_self a t)]
              exact List.mem_cons_self _ _
        have hA : ∀ x ∈ P.map (avgDist P nbNeighbors), x = FVal.inf := by
          intro x hx
          obtain ⟨p, hp, rfl⟩ := List.mem_map.mp hx
          exact havg p hp
        have hmean : FVal.mean (P.map (avgDist P nbNeighbors)) = FVal.inf :=
          FVal.mean_inf _ (fun x hx => (hA x hx) ▸ Or.inr rfl) hAne
        have hthr : statThreshold P nbNeighbors ratio = FVal.nan := by
          simp only [statThreshold, stdF]
          have hvar : FVal.mean ((P.map (avgDist P nbNeighbors)).map fun a =>
              FVal.mul
                (FVal.sub a (FVal.mean (P.map (avgDist P nbNeighbors))))
                (FVal.sub a (FVal.mean (P.map (avgDist P nbNeighbors))))) =
              FVal.nan := by
            apply FVal.mean_nan
            refine List.mem_map.mpr ⟨FVal.inf, hAne, ?_⟩
            rw [hmean]
            rfl
          rw [hvar,
            show FVal.sqrtF FVal.nan = FVal.nan from rfl, FVal.mul_fin_nan,
            FVal.add_nan_right]
        unfold remove_outliers_statistical
        apply applyMask_map_false
        intro p hp
        rw [havg p hp, hthr, FVal.ltB_nan_right]
  · by_cases hP : P = []
    · subst hP; rfl
    · rcases hrad with rfl | hk
      · rfl
      · unfold remove_outliers_radius
        apply applyMask_map_false
        intro p hp
        have hc : ballCount P radius p ≤ P.length := List.countP_le_length _
        simp only [decide_eq_false_iff_not]
        omega

/-- C7 witness at a one-point cloud with the source default
parameters (20 statistical neighbors, 16 radius neighbors). -/
theorem C7_remove_outliers_small_clouds_witness :
    remove_outliers_statistical [((0 : ℝ), (0 : ℝ), (0 : ℝ))] 20 2 = [] ∧
      remove_outliers_radius [((0 : ℝ), (0 : ℝ), (0 : ℝ))] 1 16 = [] :=
  C7_remove_outliers_small_clouds _ 20 2 1 16
    (Or.inr (by simp)) (Or.inr (by simp))
